import Mathlib

/-!
Verification development for the ReplitStoryCreator server.

The TypeScript sources are shallowly embedded: pure computations become Lean
functions, the external generative-AI providers become explicit oracle
parameters (a function from the request text to the awaited outcome of the
call: `Except Unit _` with `Except.error` modelling a rejected promise or a
non-ok HTTP response), and the in-memory record store becomes explicit state
passing over association lists.  Machine strings and numbers are modelled by
`String` and `Nat`/`Int`; all inputs relevant here are ASCII, where JavaScript
`length`, `toLowerCase` and `%` agree with the Lean counterparts used below.
-/

namespace StoryCreator

/-! ## server/gemini.ts -/

/-- Embeds `demoBookImages` (server/gemini.ts, lines 37-49): the fixed pool of
stock image URLs substituted for generated images. -/
def demoBookImages : List String := [
  "https://images.unsplash.com/photo-1629414278888-abcdb8e0a904?w=800&auto=format&fit=crop",
  "https://images.unsplash.com/photo-1631891909383-a68ec028cdc4?w=800&auto=format&fit=crop",
  "https://images.unsplash.com/photo-1516627145497-ae6968895b40?w=800&auto=format&fit=crop",
  "https://images.unsplash.com/photo-1636739653660-a33496c0e657?w=800&auto=format&fit=crop",
  "https://images.unsplash.com/photo-1594745561149-2211ca8c5d98?w=800&auto=format&fit=crop",
  "https://images.unsplash.com/photo-1558959615-b78f78af0a7f?w=800&auto=format&fit=crop",
  "https://images.unsplash.com/photo-1578897366846-369bb25b83ef?w=800&auto=format&fit=crop",
  "https://images.unsplash.com/photo-1590697151592-b48c66634e9f?w=800&auto=format&fit=crop",
  "https://images.unsplash.com/photo-1551601651-09ebecb891a1?w=800&auto=format&fit=crop",
  "https://images.unsplash.com/photo-1518791841217-8f162f1e1131?w=800&auto=format&fit=crop",
  "https://images.unsplash.com/photo-1535380097097-d53e3090abc8?w=800&auto=format&fit=crop"
]

/-- Character-list scanner behind `jsIncludes`: does `pat` occur as a
contiguous run of `cs`? -/
def includesChars (pat : List Char) : List Char → Bool
  | [] => List.isPrefixOf pat []
  | c :: cs => List.isPrefixOf pat (c :: cs) || includesChars pat cs

/-- JavaScript `String.prototype.includes`: substring containment. -/
def jsIncludes (s pat : String) : Bool := includesChars pat.data s.data

/-- JavaScript `String.prototype.toLowerCase`, character by character (the
core `String.toLower` is built on an irreducible auxiliary, so the embedding
maps over the character data directly; they agree on every string). -/
def jsToLower (s : String) : String := String.mk (s.data.map Char.toLower)

/-- JavaScript array indexing `demoBookImages[i]`; every index reaching it in
the source is in range (proved below), so the default is never produced. -/
def demoGet (i : Nat) : String := demoBookImages.getD i ""

/-- Character class of the regex `\w`. -/
def isWordChar (c : Char) : Bool := c.isAlphanum || c = '_'

/-- Scan for the first match of the regex `art style: (\w+)` and return the
captured word, mirroring `prompt.match(/art style: (\w+)/i)` applied to the
lowercased prompt (the pattern is ASCII, so case-insensitive matching over the
original string coincides with matching over its lowercasing). -/
def artStyleScan : List Char → Option String
  | [] => none
  | c :: cs =>
    if List.isPrefixOf "art style: ".data (c :: cs) then
      let w := ((c :: cs).drop "art style: ".length).takeWhile isWordChar
      if w.isEmpty then artStyleScan cs else some (String.mk w)
    else artStyleScan cs

/-- Embeds the art-style extraction of `generateImageWithGemini`
(server/gemini.ts, lines 56-63): default "cartoon", overridden when the prompt
contains "art style:" followed by a word. -/
def extractArtStyle (prompt : String) : String :=
  let promptLower := jsToLower prompt
  if jsIncludes promptLower "art style:" then
    match artStyleScan promptLower.data with
    | some w => w
    | none => "cartoon"
  else "cartoon"

/-- Style directive interpolated into the enhanced prompt
(server/gemini.ts, lines 71-74). -/
def styleClause (artStyle : String) : String :=
  if artStyle = "watercolor" then "soft brushstrokes and flowing colors"
  else if artStyle = "3d" then "dimensional characters and realistic textures"
  else "bright colors and clean outlines"

/-- Embeds `enhancedPrompt` (server/gemini.ts, lines 69-77). -/
def enhancedPromptFor (prompt : String) : String :=
  let artStyle := extractArtStyle prompt
  "Children\x27s book illustration for: " ++ prompt ++
  "\n      The illustration style should be " ++ artStyle ++ " style with " ++
  styleClause artStyle ++
  ".\n      Focus on whimsical details and a child-friendly aesthetic." ++
  "\n      Make the image appropriate for a children\x27s book with a cheerful, positive mood." ++
  "\n      Create a high-quality, detailed image suitable for a professional children\x27s book."

/-- Embeds the request text sent to the provider endpoint
(server/gemini.ts, lines 98-99). -/
def geminiRequestText (prompt : String) : String :=
  "Generate a creative, detailed description for creating a children\x27s book illustration based on this prompt: " ++
  enhancedPromptFor prompt ++
  ". \n              Focus on visual details that would help an artist create this scene."

/-- Embeds the success-path semantic selection of `generateImageWithGemini`
(server/gemini.ts, lines 129-150): keyword matching over the AI-generated
description, falling back to a length-modulo choice. -/
def descriptionSemanticIndex (description : String) : Nat :=
  let d := jsToLower description
  if jsIncludes d "forest" || jsIncludes d "trees" || jsIncludes d "nature" || jsIncludes d "woods" then 2
  else if jsIncludes d "ocean" || jsIncludes d "sea" || jsIncludes d "water" || jsIncludes d "beach" then 5
  else if jsIncludes d "space" || jsIncludes d "stars" || jsIncludes d "planet" || jsIncludes d "galaxy" then 6
  else if jsIncludes d "castle" || jsIncludes d "palace" || jsIncludes d "kingdom" || jsIncludes d "fairy tale" then 4
  else if jsIncludes d "animal" || jsIncludes d "pet" || jsIncludes d "creature" then 9
  else if jsIncludes d "adventure" || jsIncludes d "journey" || jsIncludes d "quest" then 3
  else if jsIncludes d "magic" || jsIncludes d "wizard" || jsIncludes d "spell" || jsIncludes d "mystical" then 10
  else description.length % demoBookImages.length

/-- Condition of the first branch of the catch-block fallback
(server/gemini.ts, line 169). -/
def kwForest (p : String) : Bool :=
  jsIncludes p "forest" || jsIncludes p "trees" || jsIncludes p "woods" || jsIncludes p "nature"

/-- Condition of the second branch (server/gemini.ts, line 171). -/
def kwOcean (p : String) : Bool :=
  jsIncludes p "ocean" || jsIncludes p "sea" || jsIncludes p "underwater" || jsIncludes p "fish"

/-- Condition of the third branch (server/gemini.ts, line 173). -/
def kwSpace (p : String) : Bool :=
  jsIncludes p "space" || jsIncludes p "planet" || jsIncludes p "stars" || jsIncludes p "moon"

/-- Condition of the fourth branch (server/gemini.ts, line 175). -/
def kwCastle (p : String) : Bool :=
  jsIncludes p "castle" || jsIncludes p "princess" || jsIncludes p "prince" || jsIncludes p "king"

/-- Condition of the fifth branch (server/gemini.ts, line 177). -/
def kwAnimal (p : String) : Bool :=
  jsIncludes p "animal" || jsIncludes p "pet" || jsIncludes p "dog" || jsIncludes p "cat"

/-- Condition of the sixth branch (server/gemini.ts, line 179). -/
def kwAdventure (p : String) : Bool :=
  jsIncludes p "adventure" || jsIncludes p "journey" || jsIncludes p "explore"

/-- Condition of the seventh branch (server/gemini.ts, line 181). -/
def kwMagic (p : String) : Bool :=
  jsIncludes p "magic" || jsIncludes p "wizard" || jsIncludes p "spell"

/-- Embeds the catch-block fallback selection of `generateImageWithGemini`
(server/gemini.ts, lines 166-186): keyword matching over the lowercased
prompt, falling back to a length-modulo choice. -/
def promptFallbackIndex (prompt : String) : Nat :=
  let p := jsToLower prompt
  if kwForest p then 2
  else if kwOcean p then 5
  else if kwSpace p then 6
  else if kwCastle p then 4
  else if kwAnimal p then 9
  else if kwAdventure p then 3
  else if kwMagic p then 10
  else prompt.length % demoBookImages.length

/-- The awaited outcome of one provider round trip inside
`generateImageWithGemini`: `Except.error` models a rejected fetch, a non-ok
HTTP status, or a body that fails to parse; `Except.ok` carries the optional
extracted text `imageData.candidates[0].content.parts[0].text`. -/
def ImageProvider : Type := String → Except Unit (Option String)

/-- Embeds `generateImageWithGemini` (server/gemini.ts, lines 53-193),
instrumented with the list of request texts sent to the provider.  The outer
try/catch is reflected in the `match` on the provider outcome; the catch block
computes `promptFallbackIndex` and never rethrows, so the function is total. -/
def generateImageWithGeminiT (provider : ImageProvider) (prompt : String) :
    String × List String :=
  let req := geminiRequestText prompt
  match provider req with
  | Except.ok textOpt =>
    let description := match textOpt with | none => "" | some t => t
    (demoGet (descriptionSemanticIndex description), [req])
  | Except.error _ => (demoGet (promptFallbackIndex prompt), [req])

/-- The image reference returned by `generateImageWithGemini`. -/
def generateImageWithGemini (provider : ImageProvider) (prompt : String) : String :=
  (generateImageWithGeminiT provider prompt).1

/-- The image provider oracle in which every call fails. -/
def failingImageProvider : ImageProvider := fun _ => Except.error ()

/-! ## server/gemini.ts — generateVisualStoryImagesWithGemini (lines 215-331) -/

/-- The awaited outcome of one inner `generateImageWithGemini(prompt)` promise
inside the batch loop, indexed by the slot it will fill: fulfilled with a URL,
or rejected (the `.catch` handler, server/gemini.ts lines 240-243, turns a
rejection into an `ImageGenerationError` for that index). -/
def PageImageGen : Type := Nat → String → Except Unit String

/-- Embeds the error-case fallback-index selection of the batch loop
(server/gemini.ts, lines 256-271), before reuse avoidance: keyword matching
over the lowercased prompt, else an even distribution by slot index. -/
def batchFallbackIndex (prompt : String) (idx : Nat) : Nat :=
  let p := jsToLower prompt
  if jsIncludes p "forest" || jsIncludes p "trees" then 2
  else if jsIncludes p "ocean" || jsIncludes p "sea" then 5
  else if jsIncludes p "space" then 6
  else if jsIncludes p "castle" then 4
  else idx % demoBookImages.length

/-- Embeds the reuse-avoidance while loop (server/gemini.ts, lines 277-279):
advance cyclically while the candidate index is already used.  The fuel of
`demoBookImages.length` steps is enough: the loop only runs while fewer than
`demoBookImages.length - 1` indices are used, so an unused index is reached
within the fuel. -/
def scanUnusedIdx (used : List Nat) : Nat → Nat → Nat
  | 0, idx => idx
  | fuel + 1, idx =>
    if used.contains idx ∧ used.length < demoBookImages.length - 1 then
      scanUnusedIdx used fuel ((idx + 1) % demoBookImages.length)
    else idx

/-- Embeds server/gemini.ts, lines 273-281: when the chosen fallback index was
already used and unused pool entries remain, move to the next unused index. -/
def avoidFallbackReuse (used : List Nat) (fallbackIndex : Nat) : Nat :=
  if used.contains fallbackIndex ∧ used.length < demoBookImages.length - 1 then
    scanUnusedIdx used demoBookImages.length ((fallbackIndex + 1) % demoBookImages.length)
  else fallbackIndex

/-- State of the batch loop: the positional `images` array (slot `i` holds
`none` until assigned) and the set of fallback-pool indices already used
(`usedFallbackIndices`, modelled as a duplicate-free list). -/
structure BatchImagesState where
  images : List (Option String)
  used : List Nat

/-- Processing of one settled result (server/gemini.ts, lines 250-287): a
fulfilled generation stores its URL at its slot; a rejected one stores a
keyword-selected, reuse-avoiding fallback-pool entry at its slot and marks
that pool index as used. -/
def processPageResult (gen : PageImageGen) (idx : Nat) (prompt : String)
    (st : BatchImagesState) : BatchImagesState :=
  match gen idx prompt with
  | Except.ok url => { st with images := st.images.set idx (some url) }
  | Except.error _ =>
    let fb := avoidFallbackReuse st.used (batchFallbackIndex prompt idx)
    { images := st.images.set idx (some (demoGet fb)),
      used := if st.used.contains fb then st.used else fb :: st.used }

/-- The batched loop (server/gemini.ts, lines 227-293) with
`maxConcurrent = 2`: prompts are taken two at a time, and since `Promise.all`
preserves order, the settled results of a batch are folded into the state in
slot order. -/
def runImageBatches (gen : PageImageGen) :
    Nat → List String → BatchImagesState → BatchImagesState
  | _, [], st => st
  | i, [p], st => processPageResult gen i p st
  | i, p1 :: p2 :: rest, st =>
    runImageBatches gen (i + 2) rest
      (processPageResult gen (i + 1) p2 (processPageResult gen i p1 st))

/-- Straightened (one-at-a-time) form of the batch loop, used to reason about
`runImageBatches`; the two coincide because the per-slot processing of a batch
is folded in slot order. -/
def processSeq (gen : PageImageGen) :
    Nat → List String → BatchImagesState → BatchImagesState
  | _, [], st => st
  | i, p :: rest, st => processSeq gen (i + 1) rest (processPageResult gen i p st)

/-- The final sweep (server/gemini.ts, lines 296-302): any slot that is still
unassigned, or holds a falsy (empty) string, receives the deterministic
fallback keyed by its index. -/
def sweepImages : Nat → List (Option String) → List String
  | _, [] => []
  | i, o :: rest =>
    (match o with
     | none => demoGet (i % demoBookImages.length)
     | some s => if s = "" then demoGet (i % demoBookImages.length) else s)
      :: sweepImages (i + 1) rest

/-- Embeds `generateVisualStoryImagesWithGemini` (server/gemini.ts,
lines 215-331), parametrized by the outcome of each inner
`generateImageWithGemini` call.  The outer catch (lines 306-330) is
unreachable in this embedding because the loop body and sweep are total. -/
def generateVisualStoryImagesWithGemini (gen : PageImageGen)
    (prompts : List String) : List String :=
  let st := runImageBatches gen 0 prompts ⟨List.replicate prompts.length none, []⟩
  sweepImages 0 st.images

/-! ## shared/schema.ts — data shapes used by the adapters -/

/-- Embeds the `StoryPage` interface (shared schema): one page of a visual
story, display text paired with an illustration description. -/
structure StoryPage where
  text : String
  description : String
deriving DecidableEq

/-- Embeds `BookGenerationRequest` (the output type of
`bookGenerationSchema.parse`).  The trailing optional fields are the advanced
character-customization attributes read by the adapters
(server/openai.ts, lines 125-141); they are absent from the schema, so zod
strips them and they are always `none` for a schema-validated request, but the
adapter code reads them and is embedded faithfully. -/
structure BookGenerationRequest where
  childName : String
  childAge : String
  childGender : String
  characterStyle : String
  hairStyle : String
  skinTone : String
  storyTheme : String
  storyGoal : String
  storyLength : String
  interests : List String
  companions : List String
  hairColor : Option String
  eyeColor : Option String
  clothingStyle : Option String
  height : Option String
  buildType : Option String
  accessories : Option (List String)
  facialFeatures : Option (List String)

/-! ## server/openai.ts — narrative adapter (first, current draft) -/

/-- JSON values, the result of `JSON.parse` over provider content. -/
inductive JVal where
  | jnull
  | jbool (b : Bool)
  | jnum (n : Int)
  | jstr (s : String)
  | jarr (xs : List JVal)
  | jobj (fields : List (String × JVal))

/-- The message content of a chat completion: a string that is not valid JSON
(so `JSON.parse` throws), or its parse. -/
inductive ChatContent where
  | malformed (raw : String)
  | parsed (j : JVal)

/-- The awaited outcome of one `openai.chat.completions.create` call, as a
function of the user prompt (the system message is fixed): `Except.error`
models a rejected call; `Except.ok none` models a null or empty (falsy)
content, which the source replaces by the empty JSON object via
`content || "\x7b\x7d"`. -/
def ChatProvider : Type := String → Except Unit (Option ChatContent)

/-- JavaScript property access `j.key` on a parsed JSON value: throws
(TypeError) on null, yields the field or undefined on an object, and
undefined on the remaining shapes for the field names used here. -/
def jsField : JVal → String → Except Unit (Option JVal)
  | JVal.jnull, _ => Except.error ()
  | JVal.jobj fields, key =>
    Except.ok ((fields.find? (fun f => f.1 == key)).map (fun f => f.2))
  | _, _ => Except.ok none

/-- The fixed system message of `generateVisualStory`
(server/openai.ts, lines 183-185). -/
def visualStorySystemMessage : String :=
  "You are a professional children\x27s book author and illustrator who specializes in creating visual stories that feature a child as the main character."

/-- The user-facing error text of `generateVisualStory`
(server/openai.ts, line 202). -/
def visualStoryFailMsg : String :=
  "Failed to generate visual story. Please try again later."

/-- Embeds the page-count tier mapping of `generateVisualStory`
(server/openai.ts, lines 113-114): tier "1" yields 6 pages, tier "3" yields
14, any other value 10. -/
def visualStoryNumPages (bookData : BookGenerationRequest) : Nat :=
  if bookData.storyLength = "1" then 6
  else if bookData.storyLength = "3" then 14
  else 10

/-- Embeds the detailed character-description builder shared by
`generateStory` and `generateVisualStory` (server/openai.ts, lines 120-146):
the mandatory base description, extended by the advanced attributes when
present and truthy (a JavaScript empty string is falsy and skipped). -/
def characterDescOf (b : BookGenerationRequest) : String :=
  let base := b.childName ++ ", a " ++
    (if b.childGender = "neutral" then "child" else b.childGender) ++
    " with " ++ b.hairStyle ++ " hair and " ++ b.skinTone ++ " skin tone"
  let details :=
    (match b.hairColor with
     | some c => if c = "" then [] else [c ++ " hair"]
     | none => []) ++
    (match b.eyeColor with
     | some c => if c = "" then [] else [c ++ " eyes"]
     | none => []) ++
    (match b.height with
     | some c => if c = "" then [] else [c ++ " height"]
     | none => []) ++
    (match b.buildType with
     | some c => if c = "" then [] else [c ++ " build"]
     | none => []) ++
    (match b.facialFeatures with
     | some fs =>
       if fs.length > 0 then ["facial features: " ++ String.intercalate ", " fs] else []
     | none => []) ++
    (match b.clothingStyle with
     | some c => if c = "" then [] else ["wearing " ++ c ++ " clothes"]
     | none => []) ++
    (match b.accessories with
     | some xs =>
       if xs.length > 0 then ["with accessories: " ++ String.intercalate ", " xs] else []
     | none => [])
  if details.length > 0 then
    base ++ ". They have " ++ String.intercalate "; " details ++ "."
  else base

/-- Embeds the user prompt of `generateVisualStory`
(server/openai.ts, lines 149-177). -/
def visualStoryPrompt (b : BookGenerationRequest) : String :=
  let numPages := visualStoryNumPages b
  let artStyle := if b.characterStyle = "" then "cartoon" else b.characterStyle
  let characterDesc := characterDescOf b
  "Create a children\x27s picture book with " ++ toString numPages ++
  " pages about " ++ characterDesc ++ ".\n    \nStory details:\n- Age group: " ++
  b.childAge ++ "\n- Interests: " ++ String.intercalate ", " b.interests ++
  "\n- Theme: " ++ b.storyTheme ++ "\n- Goal: " ++ b.childName ++
  " needs to " ++ b.storyGoal ++ "\n" ++
  (if b.companions.length > 0 then
    "- Companions: " ++ String.intercalate ", " b.companions
   else "- No companions") ++
  "\n- Art style: " ++ artStyle ++
  "\n\nThe story should be engaging, age-appropriate, and educational with a clear beginning, middle, and end. \nInclude a positive message or lesson.\nMake each page have a short paragraph and a clear scene to illustrate.\n\nFormat your response as JSON with this structure:\n\x7b\n  \"title\": \"The title of the story\",\n  \"pages\": [\n    \x7b\n      \"text\": \"Text for page 1 (1-3 sentences)\",\n      \"description\": \"Detailed visual description for illustration\"\n    \x7d,\n    \x7b\n      \"text\": \"Text for page 2 (1-3 sentences)\",\n      \"description\": \"Detailed visual description for illustration\"\n    \x7d,\n    ...and so on for each page\n  ]\n\x7d"

/-- The value `\x7b title: result.title, pages: result.pages \x7d` returned by
`generateVisualStory`: either field may be absent (undefined) when the parsed
JSON lacks it. -/
structure VisualStoryRaw where
  title : Option JVal
  pages : Option JVal

/-- Embeds `generateVisualStory` (server/openai.ts, lines 111-204): builds the
prompt, issues one chat call, parses the content (`content || "\x7b\x7d"`,
then `JSON.parse`), and returns the `title`/`pages` fields as-is; the catch
block wraps a rejected call, a parse failure, or a property access on null
into the single user-facing error `visualStoryFailMsg`.  No check that a
`pages` array is present is performed. -/
def generateVisualStory (chat : ChatProvider) (bookData : BookGenerationRequest) :
    Except String VisualStoryRaw :=
  match chat (visualStoryPrompt bookData) with
  | Except.error _ => Except.error visualStoryFailMsg
  | Except.ok contentOpt =>
    match (match contentOpt with
           | none => ChatContent.parsed (JVal.jobj [])
           | some c => c) with
    | ChatContent.malformed _ => Except.error visualStoryFailMsg
    | ChatContent.parsed j =>
      match jsField j "title", jsField j "pages" with
      | Except.ok t, Except.ok p => Except.ok ⟨t, p⟩
      | _, _ => Except.error visualStoryFailMsg

/-- A concrete schema-valid book request used by witnesses and
counterexamples. -/
def req0 : BookGenerationRequest :=
  { childName := "Mia", childAge := "5-7", childGender := "girl",
    characterStyle := "cartoon", hairStyle := "curly", skinTone := "light",
    storyTheme := "adventure", storyGoal := "find the lost star",
    storyLength := "1", interests := ["space"], companions := [],
    hairColor := none, eyeColor := none, clothingStyle := none,
    height := none, buildType := none, accessories := none,
    facialFeatures := none }

/-! ## server/openai.ts — generateBookImage and generateVisualStoryPages
(first, current draft) -/

/-- Embeds `extractVisualTraits` (server/openai.ts, lines 341-383): key visual
traits scraped from the character description by substring tests. -/
def extractVisualTraits (description : String) : List String :=
  let hair :=
    if jsIncludes description "curly hair" then ["curly hair"]
    else if jsIncludes description "long hair" then ["long hair"]
    else if jsIncludes description "short hair" then ["short hair"]
    else if jsIncludes description "wavy hair" then ["wavy hair"]
    else []
  let hairColor :=
    if jsIncludes description "brown hair" then ["brown hair"]
    else if jsIncludes description "blonde hair" then ["blonde hair"]
    else if jsIncludes description "black hair" then ["black hair"]
    else if jsIncludes description "red hair" then ["red hair"]
    else []
  let skin :=
    if jsIncludes description "light skin" then ["light skin tone"]
    else if jsIncludes description "medium skin" then ["medium skin tone"]
    else if jsIncludes description "tan skin" then ["tan skin tone"]
    else if jsIncludes description "dark skin" then ["dark skin tone"]
    else []
  let eyes :=
    if jsIncludes description "blue eyes" then ["blue eyes"]
    else if jsIncludes description "brown eyes" then ["brown eyes"]
    else if jsIncludes description "green eyes" then ["green eyes"]
    else []
  let clothing :=
    if jsIncludes description "casual clothes" then ["casual outfit"]
    else if jsIncludes description "formal clothes" then ["formal outfit"]
    else if jsIncludes description "sporty clothes" then ["sporty outfit"]
    else []
  let facial :=
    if jsIncludes description "freckles" then ["freckles"]
    else if jsIncludes description "dimples" then ["dimples"]
    else if jsIncludes description "rosy cheeks" then ["rosy cheeks"]
    else []
  let traits := hair ++ hairColor ++ skin ++ eyes ++ clothing ++ facial
  if traits.length = 0 then
    ["distinctive facial features", "consistent outfit", "same hairstyle"]
  else traits

/-- The style sentence shared by the page prompts
(server/openai.ts, lines 242-244). -/
def pageStyleClause (characterStyle : String) : String :=
  if characterStyle = "watercolor" then "soft brushstrokes and flowing colors"
  else if characterStyle = "3d" then "dimensional characters and realistic textures"
  else "vibrant colors and clean outlines"

/-- Embeds the first-page prompt of `generateVisualStoryPages`
(server/openai.ts, lines 230-246). -/
def firstPagePrompt (first : StoryPage) (characterStyle characterDesc : String) :
    String :=
  let characterTraits := extractVisualTraits characterDesc
  "Create a children\x27s book illustration for page 1:\n    \nScene: " ++
  first.description ++
  "\n\nVisually important details:\n1. The main character is " ++ characterDesc ++
  "\n2. This is the first page of the story, so establish a clear visual design for the character" ++
  "\n3. The character should have distinct and recognizable features" ++
  "\n4. Focus on creating a memorable character design with consistent " ++
  String.intercalate ", " characterTraits ++
  "\n\nArt style: " ++ characterStyle ++ "\n\nUse " ++
  pageStyleClause characterStyle ++
  " with a child-friendly aesthetic appropriate for a children\x27s book." ++
  "\n\nI will use this character design as a reference model for all subsequent illustrations."

/-- Embeds a subsequent-page prompt of `generateVisualStoryPages`
(server/openai.ts, lines 255-277). -/
def subsequentPagePrompt (page : StoryPage) (pageNumber : Nat)
    (characterStyle characterDesc : String) : String :=
  let characterTraits := extractVisualTraits characterDesc
  "Create a children\x27s book illustration for page " ++ toString pageNumber ++
  " using the established character model:\n      \nScene: " ++ page.description ++
  "\n\nCHARACTER CONSISTENCY REQUIREMENTS:" ++
  "\n1. The main character MUST look exactly like the character from the first illustration - same face, hair, outfit, and proportions" ++
  "\n2. Keep " ++ String.intercalate ", " characterTraits ++
  " consistent with the first illustration" ++
  "\n3. Maintain the exact same visual style for the character" ++
  "\n4. Only the pose and action should change to match this scene" ++
  "\n5. The character\x27s distinct features from the first illustration must be preserved exactly" ++
  "\n\nVisual reference: Use the first illustration as the definitive reference for the character\x27s appearance" ++
  "\n\nArt style: " ++ characterStyle ++
  " - maintain the exact same visual treatment as the first illustration\n\nUse " ++
  (if characterStyle = "watercolor" then "the same soft brushstrokes and flowing colors"
   else if characterStyle = "3d" then "the same dimensional rendering and textures"
   else "the same vibrant colors and clean outlines") ++
  " as in the first illustration."

/-- Embeds `generateVisualStoryPages` (server/openai.ts, lines 220-338),
instrumented with the list of image-provider requests issued.  The first page
is generated on its own as a reference model; the remaining prompts go through
the batch orchestration, whose inner generation is the real (total)
`generateImageWithGemini`.  The catch chain (sequential retry, simplified
prompts, last-resort URLs) is unreachable for a non-empty page list because
the try body is total in this embedding; an empty page list throws on
`pages[0].description` and the sequential fallback loop then yields `[]`. -/
def generateVisualStoryPagesT (provider : ImageProvider) (pages : List StoryPage)
    (characterStyle characterDesc : String) : List String × List String :=
  match pages with
  | [] => ([], [])
  | first :: rest =>
    let r1 := generateImageWithGeminiT provider
      (firstPagePrompt first characterStyle characterDesc)
    let remainingPrompts := rest.mapIdx
      (fun index page => subsequentPagePrompt page (index + 2) characterStyle characterDesc)
    let imgs := generateVisualStoryImagesWithGemini
      (fun _ p => Except.ok (generateImageWithGemini provider p)) remainingPrompts
    (r1.1 :: imgs, r1.2 ++ remainingPrompts.map geminiRequestText)

/-- Embeds `generateBookImage` (server/openai.ts, lines 206-218): a direct
delegation to `generateImageWithGemini`; its catch branch is unreachable
because the inner call is total. -/
def generateBookImageT (provider : ImageProvider) (prompt : String) :
    String × List String :=
  generateImageWithGeminiT provider prompt

/-! ## shared/schema.ts — request validation schemas -/

/-- Raw JSON body of POST /api/books/generate, at the shape checked by
`bookGenerationSchema` (unknown extra keys are stripped by zod and therefore
not modelled). -/
structure RawBookBody where
  childName : String
  childAge : String
  childGender : String
  characterStyle : String
  hairStyle : String
  skinTone : String
  storyTheme : String
  storyGoal : String
  storyLength : String
  interests : List String
  companions : List String

/-- The validation issues collected by `bookGenerationSchema.parse`
(shared schema, lines 87-99), one message per failing field, in declaration
order: string fields must be non-empty, `interests` must have between 1 and 3
entries, `companions` at most 2. -/
def bookGenerationSchemaIssues (b : RawBookBody) : List String :=
  (if b.childName.length < 1 then ["Child\x27s name is required"] else []) ++
  (if b.childAge.length < 1 then ["Age range is required"] else []) ++
  (if b.childGender.length < 1 then ["Gender is required"] else []) ++
  (if b.interests.length < 1 then ["At least one interest is required"] else []) ++
  (if 3 < b.interests.length then ["Maximum of 3 interests"] else []) ++
  (if b.characterStyle.length < 1 then ["Character style is required"] else []) ++
  (if b.hairStyle.length < 1 then ["Hair style is required"] else []) ++
  (if b.skinTone.length < 1 then ["Skin tone is required"] else []) ++
  (if b.storyTheme.length < 1 then ["Story theme is required"] else []) ++
  (if b.storyGoal.length < 1 then ["Story goal is required"] else []) ++
  (if 2 < b.companions.length then ["Maximum of 2 companions"] else []) ++
  (if b.storyLength.length < 1 then ["Story length is required"] else [])

/-- Embeds `bookGenerationSchema.parse`: succeeds exactly when no issue is
collected (zod throws a `ZodError` carrying every issue; the embedding carries
the first message, which is all the routes observe). -/
def bookGenerationSchemaParse (b : RawBookBody) :
    Except String BookGenerationRequest :=
  match bookGenerationSchemaIssues b with
  | e :: _ => Except.error e
  | [] => Except.ok
    { childName := b.childName, childAge := b.childAge,
      childGender := b.childGender, characterStyle := b.characterStyle,
      hairStyle := b.hairStyle, skinTone := b.skinTone,
      storyTheme := b.storyTheme, storyGoal := b.storyGoal,
      storyLength := b.storyLength, interests := b.interests,
      companions := b.companions, hairColor := none, eyeColor := none,
      clothingStyle := none, height := none, buildType := none,
      accessories := none, facialFeatures := none }

/-- The checkout payload, at the shape checked by `checkoutSchema`
(shared schema, lines 103-114); `parse` returns the same record on success. -/
structure CheckoutRequest where
  bookId : Option Nat
  firstName : String
  lastName : String
  email : String
  format : String
  total : String
  address : Option String
  city : Option String
  state : Option String
  zip : Option String

/-- Embeds `checkoutSchema.parse`: non-empty names/format/total and a valid
email.  The `z.string().email()` predicate is a check internal to the zod library and
is abstracted as the `emailValid` parameter. -/
def checkoutSchemaParse (emailValid : String → Bool) (c : CheckoutRequest) :
    Except String CheckoutRequest :=
  if c.firstName.length < 1 then Except.error "First name is required"
  else if c.lastName.length < 1 then Except.error "Last name is required"
  else if !(emailValid c.email) then Except.error "Valid email is required"
  else if c.format.length < 1 then Except.error "Format is required"
  else if c.total.length < 1 then Except.error "Total is required"
  else Except.ok c

/-! ## server/storage.ts — MemStorage -/

/-- Embeds the `users` row shape. -/
structure User where
  id : Nat
  username : String
  password : String
deriving DecidableEq

/-- Embeds the `books` row shape (shared schema, `books` table);
`createdAt` timestamps are modelled as ticks of an explicit clock. -/
structure Book where
  id : Nat
  title : String
  childName : String
  childAge : String
  childGender : String
  characterStyle : String
  hairStyle : String
  skinTone : String
  storyTheme : String
  storyGoal : String
  storyLength : String
  storyContent : String
  coverImageUrl : Option String
  previewImages : Option (List String)
  allPageImages : Option (List String)
  storyPages : Option (List StoryPage)
  format : String
  price : String
  createdAt : Nat
  userId : Option Nat
  interests : Option (List String)
  companions : Option (List String)
deriving DecidableEq

/-- A Book insert payload: every `Book` field except the server-assigned
`id` and `createdAt`. -/
structure InsertBook where
  title : String
  childName : String
  childAge : String
  childGender : String
  characterStyle : String
  hairStyle : String
  skinTone : String
  storyTheme : String
  storyGoal : String
  storyLength : String
  storyContent : String
  coverImageUrl : Option String
  previewImages : Option (List String)
  allPageImages : Option (List String)
  storyPages : Option (List StoryPage)
  format : String
  price : String
  userId : Option Nat
  interests : Option (List String)
  companions : Option (List String)

/-- The `Partial<Book>` updates object accepted by `updateBook`; a `none`
field is absent from the object and leaves the book field unchanged. -/
structure BookUpdates where
  id : Option Nat := none
  title : Option String := none
  childName : Option String := none
  childAge : Option String := none
  childGender : Option String := none
  characterStyle : Option String := none
  hairStyle : Option String := none
  skinTone : Option String := none
  storyTheme : Option String := none
  storyGoal : Option String := none
  storyLength : Option String := none
  storyContent : Option String := none
  coverImageUrl : Option (Option String) := none
  previewImages : Option (Option (List String)) := none
  allPageImages : Option (Option (List String)) := none
  storyPages : Option (Option (List StoryPage)) := none
  format : Option String := none
  price : Option String := none
  createdAt : Option Nat := none
  userId : Option (Option Nat) := none
  interests : Option (Option (List String)) := none
  companions : Option (Option (List String)) := none

/-- The object spread `\x7b ...book, ...updates \x7d` of `updateBook`: fields
present in `updates` override the book field. -/
def applyBookUpdates (b : Book) (u : BookUpdates) : Book :=
  { id := u.id.getD b.id, title := u.title.getD b.title,
    childName := u.childName.getD b.childName,
    childAge := u.childAge.getD b.childAge,
    childGender := u.childGender.getD b.childGender,
    characterStyle := u.characterStyle.getD b.characterStyle,
    hairStyle := u.hairStyle.getD b.hairStyle,
    skinTone := u.skinTone.getD b.skinTone,
    storyTheme := u.storyTheme.getD b.storyTheme,
    storyGoal := u.storyGoal.getD b.storyGoal,
    storyLength := u.storyLength.getD b.storyLength,
    storyContent := u.storyContent.getD b.storyContent,
    coverImageUrl := u.coverImageUrl.getD b.coverImageUrl,
    previewImages := u.previewImages.getD b.previewImages,
    allPageImages := u.allPageImages.getD b.allPageImages,
    storyPages := u.storyPages.getD b.storyPages,
    format := u.format.getD b.format, price := u.price.getD b.price,
    createdAt := u.createdAt.getD b.createdAt,
    userId := u.userId.getD b.userId,
    interests := u.interests.getD b.interests,
    companions := u.companions.getD b.companions }

/-- Embeds the `orders` row shape. -/
structure Order where
  id : Nat
  bookId : Nat
  firstName : String
  lastName : String
  email : String
  address : Option String
  city : Option String
  state : Option String
  zip : Option String
  format : String
  total : String
  status : String
  createdAt : Nat
deriving DecidableEq

/-- An Order insert payload: every `Order` field except `id` and
`createdAt`. -/
structure InsertOrder where
  bookId : Nat
  firstName : String
  lastName : String
  email : String
  address : Option String
  city : Option String
  state : Option String
  zip : Option String
  format : String
  total : String
  status : String

/-- JavaScript `Map.get` over an insertion-ordered association list. -/
def mapGet {α : Type} (m : List (Nat × α)) (k : Nat) : Option α :=
  (m.find? (fun p => p.1 == k)).map (fun p => p.2)

/-- JavaScript `Map.set`: replace the binding in place when the key exists
(keys are unique in a `Map`, so replacing the first binding suffices),
otherwise append at the end. -/
def mapSet {α : Type} (m : List (Nat × α)) (k : Nat) (v : α) : List (Nat × α) :=
  match m with
  | [] => [(k, v)]
  | p :: rest => if p.1 == k then (k, v) :: rest else p :: mapSet rest k v

/-- Embeds `MemStorage` (server/storage.ts): the three keyed collections and
the three id counters, plus an explicit clock supplying `new Date()`
values. -/
structure MemStorage where
  users : List (Nat × User)
  books : List (Nat × Book)
  orders : List (Nat × Order)
  userId : Nat
  bookId : Nat
  orderId : Nat
  clock : Nat

/-- The module-level `storage = new MemStorage()` at process start. -/
def emptyStorage : MemStorage :=
  { users := [], books := [], orders := [], userId := 1, bookId := 1,
    orderId := 1, clock := 0 }

/-- Embeds `MemStorage.getBook`. -/
def getBook (st : MemStorage) (id : Nat) : Option Book := mapGet st.books id

/-- Embeds `MemStorage.getOrder`. -/
def getOrder (st : MemStorage) (id : Nat) : Option Order := mapGet st.orders id

/-- Embeds `MemStorage.createBook` (server/storage.ts, lines 177-186). -/
def createBook (st : MemStorage) (bookData : InsertBook) : MemStorage × Book :=
  let id := st.bookId
  let book : Book :=
    { id := id, title := bookData.title, childName := bookData.childName,
      childAge := bookData.childAge, childGender := bookData.childGender,
      characterStyle := bookData.characterStyle,
      hairStyle := bookData.hairStyle, skinTone := bookData.skinTone,
      storyTheme := bookData.storyTheme, storyGoal := bookData.storyGoal,
      storyLength := bookData.storyLength,
      storyContent := bookData.storyContent,
      coverImageUrl := bookData.coverImageUrl,
      previewImages := bookData.previewImages,
      allPageImages := bookData.allPageImages,
      storyPages := bookData.storyPages, format := bookData.format,
      price := bookData.price, createdAt := st.clock,
      userId := bookData.userId, interests := bookData.interests,
      companions := bookData.companions }
  ({ st with bookId := id + 1, clock := st.clock + 1,
             books := mapSet st.books id book }, book)

/-- Embeds `MemStorage.updateBook` (server/storage.ts, lines 188-197): fails
when no book has the id, otherwise merges the updates over the stored book. -/
def updateBook (st : MemStorage) (id : Nat) (updates : BookUpdates) :
    Except String (MemStorage × Book) :=
  match getBook st id with
  | none => Except.error ("Book with id " ++ toString id ++ " not found")
  | some book =>
    let updatedBook := applyBookUpdates book updates
    Except.ok ({ st with books := mapSet st.books id updatedBook }, updatedBook)

/-- Embeds `MemStorage.createOrder` (server/storage.ts, lines 204-213). -/
def createOrder (st : MemStorage) (orderData : InsertOrder) : MemStorage × Order :=
  let id := st.orderId
  let order : Order :=
    { id := id, bookId := orderData.bookId,
      firstName := orderData.firstName, lastName := orderData.lastName,
      email := orderData.email, address := orderData.address,
      city := orderData.city, state := orderData.state,
      zip := orderData.zip, format := orderData.format,
      total := orderData.total, status := orderData.status,
      createdAt := st.clock }
  ({ st with orderId := id + 1, clock := st.clock + 1,
             orders := mapSet st.orders id order }, order)

/-! ## server/routes.ts — the two endpoints -/

/-- HTTP response of POST /api/orders: the status code, and the created order
when the status is 201. -/
structure OrdersResponse where
  status : Nat
  order : Option Order
deriving DecidableEq

/-- Embeds the POST /api/orders handler (routes, lines 335-377): validate,
require a truthy `bookId` (the JavaScript test `!bookId` also rejects the
falsy id 0), 404 when the book is missing, otherwise update the format and
price of the book, create the order with status "pending", and answer 201. -/
def ordersEndpoint (emailValid : String → Bool) (st : MemStorage)
    (body : CheckoutRequest) : MemStorage × OrdersResponse :=
  match checkoutSchemaParse emailValid body with
  | Except.error _ => (st, ⟨400, none⟩)
  | Except.ok validatedData =>
    match validatedData.bookId with
    | none => (st, ⟨400, none⟩)
    | some bid =>
      if bid = 0 then (st, ⟨400, none⟩)
      else
        match getBook st bid with
        | none => (st, ⟨404, none⟩)
        | some _ =>
          match updateBook st bid
            { format := some validatedData.format,
              price := some validatedData.total } with
          | Except.error _ => (st, ⟨500, none⟩)
          | Except.ok (st1, _) =>
            let r := createOrder st1
              { bookId := bid, firstName := validatedData.firstName,
                lastName := validatedData.lastName,
                email := validatedData.email,
                address := validatedData.address, city := validatedData.city,
                state := validatedData.state, zip := validatedData.zip,
                format := validatedData.format, total := validatedData.total,
                status := "pending" }
            (r.1, ⟨201, some r.2⟩)

/-- Conversion of the raw `pages` JSON field into typed story pages: an array
of objects with string `text` and `description` fields.  Provider responses
outside this shape make the handler body throw downstream (property access on
undefined), which the catch of the route maps to HTTP 500; the embedding folds
those dynamic failures into its 500 path. -/
def asStoryPages : JVal → Option (List StoryPage)
  | JVal.jarr xs => xs.mapM (fun x =>
      match x with
      | JVal.jobj fields =>
        match (fields.find? (fun f => f.1 == "text")).map (fun f => f.2),
              (fields.find? (fun f => f.1 == "description")).map (fun f => f.2) with
        | some (JVal.jstr t), some (JVal.jstr d) => some ⟨t, d⟩
        | _, _ => none
      | _ => none)
  | _ => none

/-- HTTP response of POST /api/books/generate, instrumented with the provider
traffic: the status code, the stored book id on success, the image-provider
requests issued, and the number of narrative (chat) provider calls. -/
structure GenerateResponse where
  status : Nat
  bookId : Option Nat
  imageProviderRequests : List String
  narrativeCalls : Nat

/-- Embeds the POST /api/books/generate handler (routes, lines 246-332):
validate (400 before any provider call), generate the visual story (500 on its
wrapped failure), derive the character description, generate the cover, then
the page illustrations, select previews, join the page texts, persist the
book, and answer 200.  A provider response whose `title` is not a string or
whose `pages` is not a well-formed page array makes the handler throw
downstream and is folded into the 500 path here. -/
def booksGenerateEndpoint (chat : ChatProvider) (provider : ImageProvider)
    (st : MemStorage) (body : RawBookBody) : MemStorage × GenerateResponse :=
  match bookGenerationSchemaParse body with
  | Except.error _ => (st, ⟨400, none, [], 0⟩)
  | Except.ok validatedData =>
    match generateVisualStory chat validatedData with
    | Except.error _ => (st, ⟨500, none, [], 1⟩)
    | Except.ok visualStory =>
      match visualStory.title, visualStory.pages.bind asStoryPages with
      | some (JVal.jstr title), some pages =>
        let characterDesc := validatedData.childName ++ ", a " ++
          (if validatedData.childGender = "neutral" then "child"
           else validatedData.childGender) ++
          " with " ++ validatedData.hairStyle ++ " hair and " ++
          validatedData.skinTone ++ " skin tone"
        let cover := generateBookImageT provider
          ("Book cover for \"" ++ title ++
           "\", a children\x27s book. The main character is " ++ characterDesc ++
           ". Style: " ++ validatedData.characterStyle ++ ".")
        let pagesRun := generateVisualStoryPagesT provider pages
          validatedData.characterStyle characterDesc
        let allPageImages := pagesRun.1
        let previewImages := allPageImages.take (min 2 allPageImages.length)
        let storyContent :=
          String.intercalate "\n\n" (pages.map (fun p => p.text))
        let r := createBook st
          { title := title, childName := validatedData.childName,
            childAge := validatedData.childAge,
            childGender := validatedData.childGender,
            characterStyle := validatedData.characterStyle,
            hairStyle := validatedData.hairStyle,
            skinTone := validatedData.skinTone,
            storyTheme := validatedData.storyTheme,
            storyGoal := validatedData.storyGoal,
            storyLength := validatedData.storyLength,
            storyContent := storyContent,
            coverImageUrl := some cover.1,
            previewImages := some previewImages,
            allPageImages := some allPageImages,
            storyPages := some pages, format := "pending", price := "0",
            userId := none, interests := some validatedData.interests,
            companions := some validatedData.companions }
        (r.1, ⟨200, some r.2.id, cover.2 ++ pagesRun.2, 1⟩)
      | _, _ => (st, ⟨500, none, [], 1⟩)

/-! ## Concrete fixtures used by witnesses and counterexamples -/

/-- A raw generate body that is valid except for its empty interests list. -/
def badBody0 : RawBookBody :=
  { childName := "Mia", childAge := "5-7", childGender := "girl",
    characterStyle := "cartoon", hairStyle := "curly", skinTone := "light",
    storyTheme := "adventure", storyGoal := "find the lost star",
    storyLength := "1", interests := [], companions := [] }

/-- A concrete stored book. -/
def book0 : Book :=
  { id := 1, title := "The Lost Star", childName := "Mia", childAge := "5-7",
    childGender := "girl", characterStyle := "cartoon", hairStyle := "curly",
    skinTone := "light", storyTheme := "adventure",
    storyGoal := "find the lost star", storyLength := "1",
    storyContent := "Once upon a time.", coverImageUrl := some "cover",
    previewImages := some [], allPageImages := some [], storyPages := some [],
    format := "pending", price := "0", createdAt := 0, userId := none,
    interests := some ["space"], companions := some [] }

/-- A store holding exactly `book0` under id 1, as left by one generate
call. -/
def store1 : MemStorage :=
  { users := [], books := [(1, book0)], orders := [], userId := 1,
    bookId := 2, orderId := 1, clock := 1 }

/-- A valid checkout payload referencing book 1. -/
def checkout0 : CheckoutRequest :=
  { bookId := some 1, firstName := "Ann", lastName := "Lee",
    email := "ann@example.com", format := "hardcover", total := "29.99",
    address := none, city := none, state := none, zip := none }

/-- The same payload with the falsy book id 0. -/
def checkoutZero : CheckoutRequest := { checkout0 with bookId := some 0 }

/-- The same payload with an unassigned book id. -/
def checkoutMissing : CheckoutRequest := { checkout0 with bookId := some 7 }

/-- Verification predicate: a slot of the batch state is either unassigned,
or holds a string that is a fallback-pool entry or a URL fulfilled by some
inner generation call. -/
def SlotOK (gen : PageImageGen) (o : Option String) : Prop :=
  o = none ∨ ∃ s, o = some s ∧
    (s ∈ demoBookImages ∨ ∃ i p, gen i p = Except.ok s)

/-! Basic facts about the fallback pool. -/

theorem demoBookImages_length : demoBookImages.length = 11 := rfl

theorem demoBookImages_length_pos : 0 < demoBookImages.length := by decide

theorem demoGet_eq {i : Nat} (h : i < demoBookImages.length) :
    demoGet i = demoBookImages[i] := by
  unfold demoGet
  rw [List.getD_eq_getElem?_getD, List.getElem?_eq_getElem h]
  rfl

theorem demoGet_mem {i : Nat} (h : i < demoBookImages.length) :
    demoGet i ∈ demoBookImages := by
  rw [demoGet_eq h]
  exact List.getElem_mem h

theorem demoBookImages_ne_empty : ∀ x ∈ demoBookImages, x ≠ "" := by decide

theorem promptFallbackIndex_lt (prompt : String) :
    promptFallbackIndex prompt < demoBookImages.length := by
  unfold promptFallbackIndex
  dsimp only
  split_ifs <;> first
    | decide
    | exact Nat.mod_lt _ demoBookImages_length_pos

theorem descriptionSemanticIndex_lt (description : String) :
    descriptionSemanticIndex description < demoBookImages.length := by
  unfold descriptionSemanticIndex
  dsimp only
  split_ifs <;> first
    | decide
    | exact Nat.mod_lt _ demoBookImages_length_pos

theorem generateImageWithGemini_mem (provider : ImageProvider) (prompt : String) :
    generateImageWithGemini provider prompt ∈ demoBookImages := by
  unfold generateImageWithGemini generateImageWithGeminiT
  cases h : provider (geminiRequestText prompt) with
  | ok textOpt =>
    simp only [h]
    exact demoGet_mem (descriptionSemanticIndex_lt _)
  | error e =>
    simp only [h]
    exact demoGet_mem (promptFallbackIndex_lt _)

/-- C1: for every prompt string, `generateImageWithGemini` never raises past
its own boundary — in this embedding it is a total function into `String`, its
catch block absorbing every provider failure — and even when the image
provider call always fails it returns a non-empty image reference string drawn
from the fixed fallback pool `demoBookImages`. -/
theorem c1_generateImage_absorbs_total_failure (prompt : String) :
    generateImageWithGemini failingImageProvider prompt ≠ "" ∧
    generateImageWithGemini failingImageProvider prompt ∈ demoBookImages := by
  have hmem := generateImageWithGemini_mem failingImageProvider prompt
  exact ⟨demoBookImages_ne_empty _ hmem, hmem⟩

/-- C4 counterexample: with an always-failing image provider and the concrete
prompt "a magic castle", `generateImageWithGemini` sends exactly one request
to the provider.  The claim requires a second, simplified-prompt retry before
falling back (two provider requests on total failure); the trace of length one
refutes it — the single-image adapter falls back immediately. -/
theorem c4_no_retry_counterexample :
    (generateImageWithGeminiT failingImageProvider "a magic castle").2.length = 1 ∧
    (generateImageWithGeminiT failingImageProvider "a magic castle").2.length ≠ 2 :=
  ⟨rfl, by decide⟩

/-- C4 amended: on image-provider failure `generateImageWithGemini` does not
retry — it makes exactly one provider request per invocation — and returns,
without raising, a deterministic substitute from the fixed pool chosen by
keyword matching against the lowercased prompt (first matching group in
source order wins: forest-group to pool index 2, ocean-group to 5, space-group
to 6, castle-group to 4, animal-group to 9, adventure-group to 3, magic-group
to 10), with a length-modulo selection when no keyword matches. -/
theorem c4_amended_single_call_keyword_fallback (prompt : String) :
    (generateImageWithGeminiT failingImageProvider prompt).2.length = 1 ∧
    generateImageWithGemini failingImageProvider prompt = demoGet (promptFallbackIndex prompt) ∧
    (kwForest (jsToLower prompt) = true →
      generateImageWithGemini failingImageProvider prompt = demoGet 2) ∧
    (kwForest (jsToLower prompt) = false → kwOcean (jsToLower prompt) = true →
      generateImageWithGemini failingImageProvider prompt = demoGet 5) ∧
    (kwForest (jsToLower prompt) = false → kwOcean (jsToLower prompt) = false →
      kwSpace (jsToLower prompt) = true →
      generateImageWithGemini failingImageProvider prompt = demoGet 6) ∧
    (kwForest (jsToLower prompt) = false → kwOcean (jsToLower prompt) = false →
      kwSpace (jsToLower prompt) = false → kwCastle (jsToLower prompt) = true →
      generateImageWithGemini failingImageProvider prompt = demoGet 4) ∧
    (kwForest (jsToLower prompt) = false → kwOcean (jsToLower prompt) = false →
      kwSpace (jsToLower prompt) = false → kwCastle (jsToLower prompt) = false →
      kwAnimal (jsToLower prompt) = true →
      generateImageWithGemini failingImageProvider prompt = demoGet 9) ∧
    (kwForest (jsToLower prompt) = false → kwOcean (jsToLower prompt) = false →
      kwSpace (jsToLower prompt) = false → kwCastle (jsToLower prompt) = false →
      kwAnimal (jsToLower prompt) = false → kwAdventure (jsToLower prompt) = true →
      generateImageWithGemini failingImageProvider prompt = demoGet 3) ∧
    (kwForest (jsToLower prompt) = false → kwOcean (jsToLower prompt) = false →
      kwSpace (jsToLower prompt) = false → kwCastle (jsToLower prompt) = false →
      kwAnimal (jsToLower prompt) = false → kwAdventure (jsToLower prompt) = false →
      kwMagic (jsToLower prompt) = true →
      generateImageWithGemini failingImageProvider prompt = demoGet 10) ∧
    (kwForest (jsToLower prompt) = false → kwOcean (jsToLower prompt) = false →
      kwSpace (jsToLower prompt) = false → kwCastle (jsToLower prompt) = false →
      kwAnimal (jsToLower prompt) = false → kwAdventure (jsToLower prompt) = false →
      kwMagic (jsToLower prompt) = false →
      generateImageWithGemini failingImageProvider prompt =
        demoGet (prompt.length % demoBookImages.length)) := by
  have hbase :
      generateImageWithGemini failingImageProvider prompt =
        demoGet (promptFallbackIndex prompt) := rfl
  refine ⟨rfl, hbase, ?_, ?_, ?_, ?_, ?_, ?_, ?_, ?_⟩ <;>
    (intros; rw [hbase]; unfold promptFallbackIndex; simp_all)

/-- C4 amended witness: the concrete prompt "a forest walk" matches the
forest keyword group, so the always-failing provider yields pool entry 2. -/
theorem c4_amended_witness :
    generateImageWithGemini failingImageProvider "a forest walk" = demoGet 2 :=
  (c4_amended_single_call_keyword_fallback "a forest walk").2.2.1 (by decide)

/-- C10: the fallback pool has exactly 11 entries, and every image reference
string returned by `generateImageWithGemini` — on the success path as well as
on every fallback path, for every provider behavior — is an element of
`demoBookImages`; the function never returns a provider-generated URL or a
locally saved file path. -/
theorem c10_generateImage_pool_only :
    demoBookImages.length = 11 ∧
    ∀ (provider : ImageProvider) (prompt : String),
      generateImageWithGemini provider prompt ∈ demoBookImages :=
  ⟨rfl, generateImageWithGemini_mem⟩

/-! Lemmas about the batch orchestration. -/

theorem batchFallbackIndex_lt (prompt : String) (idx : Nat) :
    batchFallbackIndex prompt idx < demoBookImages.length := by
  unfold batchFallbackIndex
  dsimp only
  split_ifs <;> first
    | decide
    | exact Nat.mod_lt _ demoBookImages_length_pos

theorem scanUnusedIdx_lt (used : List Nat) :
    ∀ (fuel idx : Nat), idx < demoBookImages.length →
      scanUnusedIdx used fuel idx < demoBookImages.length
  | 0, _, h => h
  | fuel + 1, idx, h => by
    unfold scanUnusedIdx
    split
    · exact scanUnusedIdx_lt used fuel _ (Nat.mod_lt _ demoBookImages_length_pos)
    · exact h

theorem avoidFallbackReuse_lt (used : List Nat) (fb : Nat)
    (h : fb < demoBookImages.length) :
    avoidFallbackReuse used fb < demoBookImages.length := by
  unfold avoidFallbackReuse
  split
  · exact scanUnusedIdx_lt used _ _ (Nat.mod_lt _ demoBookImages_length_pos)
  · exact h

theorem runImageBatches_eq_processSeq (gen : PageImageGen) :
    ∀ (ps : List String) (i : Nat) (st : BatchImagesState),
      runImageBatches gen i ps st = processSeq gen i ps st
  | [], _, _ => rfl
  | [_], _, _ => rfl
  | _ :: _ :: rest, i, st => by
    simp only [runImageBatches, processSeq]
    exact runImageBatches_eq_processSeq gen rest (i + 2) _

theorem processPageResult_images_length (gen : PageImageGen) (i : Nat)
    (p : String) (st : BatchImagesState) :
    (processPageResult gen i p st).images.length = st.images.length := by
  unfold processPageResult
  cases gen i p <;> simp

theorem processSeq_images_length (gen : PageImageGen) :
    ∀ (ps : List String) (i : Nat) (st : BatchImagesState),
      (processSeq gen i ps st).images.length = st.images.length
  | [], _, _ => rfl
  | p :: rest, i, st => by
    simp only [processSeq]
    rw [processSeq_images_length gen rest (i + 1), processPageResult_images_length]

theorem processSeq_images_untouched (gen : PageImageGen) :
    ∀ (ps : List String) (i : Nat) (st : BatchImagesState) (j : Nat), j < i →
      (processSeq gen i ps st).images[j]? = st.images[j]?
  | [], _, _, _, _ => rfl
  | p :: rest, i, st, j, hj => by
    simp only [processSeq]
    rw [processSeq_images_untouched gen rest (i + 1) _ j (Nat.lt_succ_of_lt hj)]
    cases hg : gen i p <;>
      simp [processPageResult, hg, List.getElem?_set_ne (Nat.ne_of_lt hj).symm]

theorem processSeq_images_ok (gen : PageImageGen) :
    ∀ (ps : List String) (i : Nat) (st : BatchImagesState) (j : Nat)
      (q u : String),
      i + ps.length ≤ st.images.length →
      ps[j]? = some q →
      gen (i + j) q = Except.ok u →
      (processSeq gen i ps st).images[i + j]? = some (some u)
  | [], _, _, _, _, _, _, hq, _ => by simp at hq
  | p :: rest, i, st, 0, q, u, hlen, hq, hg => by
    have hq' : q = p := by simpa using hq.symm
    have hi : i < st.images.length := by
      simp only [List.length_cons] at hlen
      omega
    simp only [processSeq]
    simp only [Nat.add_zero] at hg ⊢
    rw [processSeq_images_untouched gen rest (i + 1) _ i (Nat.lt_succ_self i)]
    subst hq'
    simp [processPageResult, hg, List.getElem?_set_self hi]
  | p :: rest, i, st, j + 1, q, u, hlen, hq, hg => by
    simp only [processSeq]
    have hlen' : (i + 1) + rest.length ≤
        (processPageResult gen i p st).images.length := by
      rw [processPageResult_images_length]
      simp only [List.length_cons] at hlen
      omega
    have hq' : rest[j]? = some q := by simpa using hq
    have hg' : gen ((i + 1) + j) q = Except.ok u := by
      rw [show (i + 1) + j = i + (j + 1) from by omega]
      exact hg
    rw [show i + (j + 1) = (i + 1) + j from by omega]
    exact processSeq_images_ok gen rest (i + 1) _ j q u hlen' hq' hg'

theorem processSeq_slotOK (gen : PageImageGen) :
    ∀ (ps : List String) (i : Nat) (st : BatchImagesState),
      (∀ o ∈ st.images, SlotOK gen o) →
      ∀ o ∈ (processSeq gen i ps st).images, SlotOK gen o
  | [], _, _, h => h
  | p :: rest, i, st, h => by
    simp only [processSeq]
    refine processSeq_slotOK gen rest (i + 1) _ ?_
    intro o ho
    cases hg : gen i p with
    | ok url =>
      simp only [processPageResult, hg] at ho
      rcases List.mem_or_eq_of_mem_set ho with h1 | h2
      · exact h o h1
      · exact Or.inr ⟨url, h2, Or.inr ⟨i, p, hg⟩⟩
    | error e =>
      simp only [processPageResult, hg] at ho
      rcases List.mem_or_eq_of_mem_set ho with h1 | h2
      · exact h o h1
      · refine Or.inr ⟨_, h2, Or.inl ?_⟩
        exact demoGet_mem (avoidFallbackReuse_lt _ _ (batchFallbackIndex_lt p i))

theorem sweepImages_length : ∀ (k : Nat) (pre : List (Option String)),
    (sweepImages k pre).length = pre.length
  | _, [] => rfl
  | k, o :: rest => by
    simp only [sweepImages, List.length_cons, sweepImages_length (k + 1) rest]

theorem sweepImages_getElem? : ∀ (k : Nat) (pre : List (Option String)) (i : Nat),
    (sweepImages k pre)[i]? = (pre[i]?).map (fun o =>
      match o with
      | none => demoGet ((k + i) % demoBookImages.length)
      | some s => if s = "" then demoGet ((k + i) % demoBookImages.length) else s)
  | _, [], i => by simp [sweepImages]
  | k, o :: rest, 0 => by simp [sweepImages]
  | k, o :: rest, i + 1 => by
    simp only [sweepImages, List.getElem?_cons_succ]
    rw [show k + (i + 1) = (k + 1) + i from by omega]
    exact sweepImages_getElem? (k + 1) rest i

theorem sweepImages_cases {pre : List (Option String)} {x : String}
    (hx : x ∈ sweepImages 0 pre) :
    x ∈ demoBookImages ∨ (some x ∈ pre ∧ x ≠ "") := by
  obtain ⟨i, hi⟩ := List.mem_iff_getElem?.1 hx
  rw [sweepImages_getElem?] at hi
  cases hpre : pre[i]? with
  | none => rw [hpre] at hi; simp at hi
  | some o =>
    rw [hpre] at hi
    cases o with
    | none =>
      simp only [Option.map_some'] at hi
      left
      rw [← Option.some_inj.1 hi]
      exact demoGet_mem (Nat.mod_lt _ demoBookImages_length_pos)
    | some s =>
      simp only [Option.map_some'] at hi
      have hi' := Option.some_inj.1 hi
      by_cases hs : s = ""
      · left
        rw [← hi']
        simp only [hs, if_pos rfl]
        exact demoGet_mem (Nat.mod_lt _ demoBookImages_length_pos)
      · right
        rw [if_neg hs] at hi'
        subst hi'
        exact ⟨List.mem_iff_getElem?.2 ⟨i, hpre⟩, hs⟩

/-- C2: for every non-empty list of page prompts and every behavior of the
inner per-page generation, `generateVisualStoryImagesWithGemini` returns an
array of exactly the same length with every index filled by a non-empty
string; the entry at index `i` corresponds to the prompt at index `i`
(a fulfilled non-empty URL for slot `i` appears at index `i`); under total
provider failure every entry is a fallback-pool element; and the final sweep
assigns any still-missing slot the deterministic fallback keyed by its
index. -/
theorem c2_batch_images_no_undefined_slots (gen : PageImageGen)
    (prompts : List String) (hne : prompts ≠ []) :
    (generateVisualStoryImagesWithGemini gen prompts).length = prompts.length ∧
    (∀ x ∈ generateVisualStoryImagesWithGemini gen prompts, x ≠ "") ∧
    (∀ (i : Nat) (q u : String), prompts[i]? = some q → u ≠ "" →
      gen i q = Except.ok u →
      (generateVisualStoryImagesWithGemini gen prompts)[i]? = some u) ∧
    ((∀ i p, gen i p = Except.error ()) →
      ∀ x ∈ generateVisualStoryImagesWithGemini gen prompts, x ∈ demoBookImages) ∧
    (∀ (pre : List (Option String)) (i : Nat), pre[i]? = some none →
      (sweepImages 0 pre)[i]? =
        some (demoGet (i % demoBookImages.length))) := by
  have hinit : ∀ o ∈ List.replicate prompts.length (none : Option String),
      SlotOK gen o := by
    intro o ho
    exact Or.inl (List.eq_of_mem_replicate ho)
  have hrun := runImageBatches_eq_processSeq gen prompts 0
    ⟨List.replicate prompts.length none, []⟩
  have hlenpre :
      (processSeq gen 0 prompts ⟨List.replicate prompts.length none, []⟩).images.length
        = prompts.length := by
    rw [processSeq_images_length]
    exact List.length_replicate ..
  refine ⟨?_, ?_, ?_, ?_, ?_⟩
  · unfold generateVisualStoryImagesWithGemini
    rw [hrun, sweepImages_length, hlenpre]
  · intro x hx
    unfold generateVisualStoryImagesWithGemini at hx
    rw [hrun] at hx
    rcases sweepImages_cases hx with h | ⟨_, hxe⟩
    · exact demoBookImages_ne_empty x h
    · exact hxe
  · intro i q u hq hu hg
    unfold generateVisualStoryImagesWithGemini
    rw [hrun, sweepImages_getElem?]
    have hok := processSeq_images_ok gen prompts 0
      ⟨List.replicate prompts.length none, []⟩ i q u
      (by simp) (by simpa using hq) (by simpa using hg)
    rw [show (0 : Nat) + i = i from by omega] at hok
    rw [hok]
    simp [hu]
  · intro hfail x hx
    unfold generateVisualStoryImagesWithGemini at hx
    rw [hrun] at hx
    rcases sweepImages_cases hx with h | ⟨hxin, hxe⟩
    · exact h
    · rcases processSeq_slotOK gen prompts 0 _ hinit _ hxin with h1 | ⟨s, hs, h2⟩
      · exact absurd h1 (by simp)
      · rcases h2 with h2 | ⟨j, p, h2⟩
        · rw [Option.some_inj.1 hs]
          exact h2
        · rw [hfail j p] at h2
          exact absurd h2 (by simp)
  · intro pre i hpre
    rw [sweepImages_getElem?, hpre]
    simp

/-- C2 witness: at the concrete prompt list `["a", "b", "c"]` the batch
orchestration returns three entries, all pool members under an always-failing
inner generation; and with the inner generation failing only at slot 1, slot 0
carries its fulfilled URL. -/
theorem c2_batch_images_witness :
    (generateVisualStoryImagesWithGemini (fun _ _ => Except.error ())
      ["a", "b", "c"]).length = 3 ∧
    (∀ x ∈ generateVisualStoryImagesWithGemini (fun _ _ => Except.error ())
      ["a", "b", "c"], x ∈ demoBookImages) ∧
    (generateVisualStoryImagesWithGemini
      (fun i _ => if i = 1 then Except.error () else Except.ok "ok-url")
      ["a", "b", "c"])[0]? = some "ok-url" := by
  refine ⟨?_, ?_, ?_⟩
  · exact (c2_batch_images_no_undefined_slots (fun _ _ => Except.error ())
      ["a", "b", "c"] (by simp)).1
  · exact (c2_batch_images_no_undefined_slots (fun _ _ => Except.error ())
      ["a", "b", "c"] (by simp)).2.2.2.1 (fun _ _ => rfl)
  · exact (c2_batch_images_no_undefined_slots
      (fun i _ => if i = 1 then Except.error () else Except.ok "ok-url")
      ["a", "b", "c"] (by simp)).2.2.1 0 "a" "ok-url" rfl (by simp) rfl

/-! Claims about the narrative adapter. -/

/-- C7 counterexample: a well-formed provider response that is a JSON object
with a `title` but no `pages` array is NOT treated as a fatal error by
`generateVisualStory` — the call succeeds, returning an undefined `pages`
field, contradicting the part of the claim that a missing `pages` array is
fatal for this call.  (`Except.ok` is the non-error result; the claim would
require `Except.error`.) -/
theorem c7_missing_pages_not_fatal :
    generateVisualStory
      (fun _ => Except.ok (some (ChatContent.parsed
        (JVal.jobj [("title", JVal.jstr "The Lost Star")])))) req0 =
      Except.ok ⟨some (JVal.jstr "The Lost Star"), none⟩ := rfl

/-- C7 amended: any provider error and any JSON parse failure is wrapped into
the single user-facing "failed to generate visual story" error rather than
propagating the underlying error; but a syntactically valid JSON object
response missing the `pages` field is not detected by `generateVisualStory` —
the call returns successfully with an undefined `pages` field (the failure
then surfaces downstream, outside this adapter). -/
theorem c7_amended_wrap_provider_and_parse_failures
    (bookData : BookGenerationRequest) (raw : String)
    (fields : List (String × JVal)) :
    generateVisualStory (fun _ => Except.error ()) bookData =
      Except.error visualStoryFailMsg ∧
    generateVisualStory (fun _ => Except.ok (some (ChatContent.malformed raw)))
      bookData = Except.error visualStoryFailMsg ∧
    (fields.find? (fun f => f.1 == "pages") = none →
      generateVisualStory
        (fun _ => Except.ok (some (ChatContent.parsed (JVal.jobj fields))))
        bookData =
        Except.ok ⟨(fields.find? (fun f => f.1 == "title")).map (fun f => f.2),
          none⟩) := by
  refine ⟨rfl, rfl, fun h => ?_⟩
  simp [generateVisualStory, jsField, h]

/-- C7 amended witness: the empty JSON object — no `pages`, no `title` —
yields a successful result with both fields undefined. -/
theorem c7_amended_witness :
    generateVisualStory
      (fun _ => Except.ok (some (ChatContent.parsed (JVal.jobj [])))) req0 =
      Except.ok ⟨none, none⟩ :=
  (c7_amended_wrap_provider_and_parse_failures req0 "not json" []).2.2 rfl

/-- C8: the narrative adapter maps the story-length tier to a target page
count: tier "1" (short) maps to 6 pages, tier "3" (long) maps to 14 pages,
and any other value (including the medium tier "2") maps to 10 pages. -/
theorem c8_story_length_tier_page_count (bookData : BookGenerationRequest) :
    (bookData.storyLength = "1" → visualStoryNumPages bookData = 6) ∧
    (bookData.storyLength = "3" → visualStoryNumPages bookData = 14) ∧
    (bookData.storyLength ≠ "1" → bookData.storyLength ≠ "3" →
      visualStoryNumPages bookData = 10) := by
  unfold visualStoryNumPages
  exact ⟨fun h => by simp [h], fun h => by simp [h],
    fun h1 h2 => by simp [h1, h2]⟩

/-- C8 witness: the concrete short-tier request `req0` (storyLength "1")
maps to 6 pages. -/
theorem c8_story_length_witness : visualStoryNumPages req0 = 6 :=
  (c8_story_length_tier_page_count req0).1 rfl

/-! Lemmas about the association-list store. -/

theorem mapGet_mapSet_self {α : Type} :
    ∀ (m : List (Nat × α)) (k : Nat) (v : α), mapGet (mapSet m k v) k = some v
  | [], k, v => by simp [mapSet, mapGet]
  | p :: rest, k, v => by
    unfold mapSet
    by_cases h : p.1 = k
    · rw [if_pos (by simpa using h)]
      simp [mapGet]
    · rw [if_neg (by simpa using h)]
      unfold mapGet
      rw [List.find?_cons_of_neg _ (by simpa using h)]
      exact mapGet_mapSet_self rest k v

theorem mapGet_mapSet_ne {α : Type} :
    ∀ (m : List (Nat × α)) (k k' : Nat) (v : α), k' ≠ k →
      mapGet (mapSet m k v) k' = mapGet m k'
  | [], k, k', v, h => by
    unfold mapSet mapGet
    rw [List.find?_cons_of_neg _ (by simpa using fun e => h e.symm)]
  | p :: rest, k, k', v, h => by
    unfold mapSet
    by_cases hp : p.1 = k
    · rw [if_pos (by simpa using hp)]
      unfold mapGet
      rw [List.find?_cons_of_neg _ (by simpa using fun e => h e.symm)]
      rw [List.find?_cons_of_neg _ (by simpa [hp] using fun e => h e.symm)]
    · rw [if_neg (by simpa using hp)]
      by_cases hq : p.1 = k'
      · unfold mapGet
        rw [List.find?_cons_of_pos _ (by simpa using hq),
          List.find?_cons_of_pos _ (by simpa using hq)]
      · unfold mapGet
        rw [List.find?_cons_of_neg _ (by simpa using hq),
          List.find?_cons_of_neg _ (by simpa using hq)]
        exact mapGet_mapSet_ne rest k k' v h

theorem mapGet_key_mem {α : Type} {m : List (Nat × α)} {k : Nat} {v : α}
    (h : mapGet m k = some v) : (k, v) ∈ m := by
  unfold mapGet at h
  cases hf : m.find? (fun p => p.1 == k) with
  | none => rw [hf] at h; simp at h
  | some p =>
    rw [hf] at h
    simp only [Option.map_some', Option.some_inj] at h
    have hmem := List.mem_of_find?_eq_some hf
    have hp := List.find?_some hf
    obtain ⟨a, b⟩ := p
    simp only at h hp
    have ha : a = k := by simpa using hp
    rw [← ha, ← h]
    exact hmem

/-! Lemmas about the validation schemas. -/

theorem bookGenerationSchemaParse_ok_bounds {b : RawBookBody}
    {v : BookGenerationRequest} (h : bookGenerationSchemaParse b = Except.ok v) :
    1 ≤ b.interests.length ∧ b.interests.length ≤ 3 ∧
      b.companions.length ≤ 2 := by
  unfold bookGenerationSchemaParse at h
  cases hi : bookGenerationSchemaIssues b with
  | cons e rest => rw [hi] at h; exact Except.noConfusion h
  | nil =>
    have h3 : ¬ b.interests.length < 1 := fun hc => by
      simp [bookGenerationSchemaIssues, hc] at hi
    have h4 : ¬ 3 < b.interests.length := fun hc => by
      simp [bookGenerationSchemaIssues, hc] at hi
    have h5 : ¬ 2 < b.companions.length := fun hc => by
      simp [bookGenerationSchemaIssues, hc] at hi
    omega

/-! Claims about the HTTP endpoints. -/

/-- C3: for every book-generation request body whose interests array has
length outside [1, 3] or whose companions array has length greater than 2,
the generate endpoint rejects it with HTTP 400 (schema validation failure)
before invoking the narrative provider or the image provider: zero narrative
calls, zero image-provider requests, and the store untouched. -/
theorem c3_validation_rejects_before_providers (chat : ChatProvider)
    (provider : ImageProvider) (st : MemStorage) (body : RawBookBody)
    (h : body.interests.length < 1 ∨ 3 < body.interests.length ∨
      2 < body.companions.length) :
    (booksGenerateEndpoint chat provider st body).2.status = 400 ∧
    (booksGenerateEndpoint chat provider st body).2.narrativeCalls = 0 ∧
    (booksGenerateEndpoint chat provider st body).2.imageProviderRequests = [] ∧
    (booksGenerateEndpoint chat provider st body).1 = st := by
  cases hp : bookGenerationSchemaParse body with
  | error e =>
    unfold booksGenerateEndpoint
    rw [hp]
    exact ⟨rfl, rfl, rfl, rfl⟩
  | ok v =>
    have hb := bookGenerationSchemaParse_ok_bounds hp
    omega

/-- C3 witness: the concrete body `badBody0` (no interests) is rejected with
status 400, no narrative call, no image-provider request, and an unchanged
store. -/
theorem c3_validation_witness :
    (booksGenerateEndpoint (fun _ => Except.error ()) failingImageProvider
      emptyStorage badBody0).2.status = 400 ∧
    (booksGenerateEndpoint (fun _ => Except.error ()) failingImageProvider
      emptyStorage badBody0).2.narrativeCalls = 0 ∧
    (booksGenerateEndpoint (fun _ => Except.error ()) failingImageProvider
      emptyStorage badBody0).2.imageProviderRequests = [] ∧
    (booksGenerateEndpoint (fun _ => Except.error ()) failingImageProvider
      emptyStorage badBody0).1 = emptyStorage :=
  c3_validation_rejects_before_providers (fun _ => Except.error ())
    failingImageProvider emptyStorage badBody0 (Or.inl (by decide))

/-- C5: for every checkout request that passes validation and whose (truthy)
bookId refers to an existing Book, the order endpoint updates that Book to
the submitted format and total (stored in `price`), creates and persists an
Order with status "pending" whose `bookId` equals the input, and returns
that Order with HTTP 201. -/
theorem c5_create_order_round_trip (emailValid : String → Bool)
    (st : MemStorage) (body : CheckoutRequest) (bid : Nat) (book : Book)
    (hok : checkoutSchemaParse emailValid body = Except.ok body)
    (hbid : body.bookId = some bid) (hnz : bid ≠ 0)
    (hbook : getBook st bid = some book) :
    ∃ (st' : MemStorage) (order : Order),
      ordersEndpoint emailValid st body = (st', ⟨201, some order⟩) ∧
      order.bookId = bid ∧ order.status = "pending" ∧
      order.format = body.format ∧ order.total = body.total ∧
      getOrder st' order.id = some order ∧
      (getBook st' bid).map (fun b => b.format) = some body.format ∧
      (getBook st' bid).map (fun b => b.price) = some body.total := by
  unfold ordersEndpoint updateBook
  rw [hok]
  dsimp only
  rw [hbid]
  dsimp only
  rw [if_neg hnz, hbook]
  dsimp only
  refine ⟨_, _, rfl, rfl, rfl, rfl, rfl, ?_, ?_, ?_⟩
  · unfold createOrder getOrder
    exact mapGet_mapSet_self ..
  · unfold createOrder getBook
    dsimp only
    rw [mapGet_mapSet_self]
    rfl
  · unfold createOrder getBook
    dsimp only
    rw [mapGet_mapSet_self]
    rfl

/-- C5 witness: the concrete checkout `checkout0` against `store1` yields 201,
an order for book 1 with status "pending" carrying the submitted format and
total, and the stored book now carries them as well. -/
theorem c5_create_order_witness :
    (ordersEndpoint (fun _ => true) store1 checkout0).2.status = 201 ∧
    ((ordersEndpoint (fun _ => true) store1 checkout0).2.order.map
      (fun o => (o.bookId, o.status, o.format, o.total))) =
      some (1, "pending", "hardcover", "29.99") ∧
    ((getBook (ordersEndpoint (fun _ => true) store1 checkout0).1 1).map
      (fun b => (b.format, b.price))) = some ("hardcover", "29.99") := by
  obtain ⟨st', order, heq, h1, h2, h3, h4, h5, h6, h7⟩ :=
    c5_create_order_round_trip (fun _ => true) store1 checkout0 1 book0
      rfl rfl (by decide) rfl
  rw [heq]
  refine ⟨rfl, ?_, ?_⟩
  · simp only [Option.map_some', h1, h2, h3, h4]
    rfl
  · cases hb : getBook st' 1 with
    | none => rw [hb] at h6; simp at h6
    | some b =>
      rw [hb] at h6 h7
      simp only [Option.map_some', Option.some_inj] at h6 h7
      simp only [hb, Option.map_some', Option.some_inj, h6, h7]
      rfl

/-- C6 counterexample: the checkout `checkoutZero` references book id 0,
which does not resolve to any stored Book of `store1`; yet the endpoint
answers 400, not 404, because the JavaScript guard `!bookId` also treats the
falsy id 0 as missing. -/
theorem c6_zero_bookid_counterexample :
    getBook store1 0 = none ∧
    (ordersEndpoint (fun _ => true) store1 checkoutZero).2.status = 400 ∧
    ¬ (ordersEndpoint (fun _ => true) store1 checkoutZero).2.status = 404 :=
  ⟨rfl, rfl, by decide⟩

/-- C6 amended: for every validated checkout request whose bookId is present
and nonzero but does not resolve to a stored Book, the endpoint returns HTTP
404 with no Order created and the store unchanged; a missing bookId, or the
falsy bookId 0, is instead rejected with HTTP 400, likewise without touching
the store. -/
theorem c6_amended_unresolved_book_404 (emailValid : String → Bool)
    (st : MemStorage) (body : CheckoutRequest) (bid : Nat)
    (hok : checkoutSchemaParse emailValid body = Except.ok body) :
    (body.bookId = some bid → bid ≠ 0 → getBook st bid = none →
      ordersEndpoint emailValid st body = (st, ⟨404, none⟩)) ∧
    (body.bookId = none →
      ordersEndpoint emailValid st body = (st, ⟨400, none⟩)) ∧
    (body.bookId = some 0 →
      ordersEndpoint emailValid st body = (st, ⟨400, none⟩)) := by
  refine ⟨fun h1 h2 h3 => ?_, fun h1 => ?_, fun h1 => ?_⟩
  · unfold ordersEndpoint
    rw [hok]
    dsimp only
    rw [h1]
    dsimp only
    rw [if_neg h2, h3]
  · unfold ordersEndpoint
    rw [hok]
    dsimp only
    rw [h1]
  · unfold ordersEndpoint
    rw [hok]
    dsimp only
    rw [h1]
    dsimp only
    rw [if_pos rfl]

/-- C6 amended witness: the concrete checkout `checkoutMissing` (book id 7,
unassigned in `store1`) yields 404 and leaves the store unchanged. -/
theorem c6_amended_witness :
    ordersEndpoint (fun _ => true) store1 checkoutMissing =
      (store1, ⟨404, none⟩) :=
  (c6_amended_unresolved_book_404 (fun _ => true) store1 checkoutMissing 7
    rfl).1 rfl (by decide) rfl

/-- C9: for every successful order creation against an existing Book, only
the format and price fields of that Book change — the updated record equals the
old one with just those two fields replaced — every other book is untouched,
users are untouched, every preexisting order is preserved, and the Book is
never deleted (it is still stored under its id). -/
theorem c9_order_mutation_frame (emailValid : String → Bool)
    (st : MemStorage) (body : CheckoutRequest) (bid : Nat) (book : Book)
    (hok : checkoutSchemaParse emailValid body = Except.ok body)
    (hbid : body.bookId = some bid) (hnz : bid ≠ 0)
    (hbook : getBook st bid = some book)
    (hfresh : ∀ p ∈ st.orders, p.1 < st.orderId) :
    ∃ (st' : MemStorage) (order : Order),
      ordersEndpoint emailValid st body = (st', ⟨201, some order⟩) ∧
      getBook st' bid =
        some { book with format := body.format, price := body.total } ∧
      (∀ k, k ≠ bid → getBook st' k = getBook st k) ∧
      st'.users = st.users ∧
      (∀ k o, getOrder st k = some o → getOrder st' k = some o) := by
  unfold ordersEndpoint updateBook
  rw [hok]
  dsimp only
  rw [hbid]
  dsimp only
  rw [if_neg hnz, hbook]
  dsimp only
  refine ⟨_, _, rfl, ?_, ?_, rfl, ?_⟩
  · unfold createOrder getBook
    dsimp only
    rw [mapGet_mapSet_self]
    rfl
  · intro k hk
    unfold createOrder getBook
    dsimp only
    rw [mapGet_mapSet_ne _ _ _ _ hk]
  · intro k o ho
    have hk : k < st.orderId := by
      have := hfresh _ (mapGet_key_mem ho)
      simpa using this
    unfold createOrder getOrder
    dsimp only
    rw [mapGet_mapSet_ne _ _ _ _ (Nat.ne_of_lt hk)]
    exact ho

/-- C9 witness: the concrete checkout `checkout0` against `store1` stores
book 1 with only format and price replaced, and leaves users and other
entries unchanged. -/
theorem c9_order_mutation_witness :
    ∃ (st' : MemStorage) (order : Order),
      ordersEndpoint (fun _ => true) store1 checkout0 =
        (st', ⟨201, some order⟩) ∧
      getBook st' 1 =
        some { book0 with format := "hardcover", price := "29.99" } ∧
      st'.users = store1.users :=
  match c9_order_mutation_frame (fun _ => true) store1 checkout0 1 book0
    rfl rfl (by decide) rfl (by intro p hp; simp [store1] at hp) with
  | ⟨st', order, heq, hb, _, hu, _⟩ => ⟨st', order, heq, hb, hu⟩

end StoryCreator
